import Mathlib

/-!
Verification of the interview session state machine and scoring engine of
the `excel-interviewer-poc` backend (`src/backend/main.py`).

The Python source is shallowly embedded below.  Python floats are modelled
by `ℚ`; Python's `time.time()` values and the external collaborators
(question generation, open-answer rubric grading) are passed as explicit
parameters, so every operation is a pure function of its inputs.
-/

namespace ExcelInterviewer

/-! ## String helpers modelling Python string operations -/

/-- Python whitespace characters relevant to `str.strip` / `\s`. -/
def pyIsSpace (c : Char) : Bool :=
  c = ' ' || c = '\t' || c = '\n' || c = '\r' || c = '\x0b' || c = '\x0c'

/-- Python `str.strip()`: drop leading and trailing whitespace. -/
def pyStrip (s : String) : String :=
  ⟨((s.toList.dropWhile pyIsSpace).reverse.dropWhile pyIsSpace).reverse⟩

/-- Python `str.upper()` (ASCII fragment). -/
def pyUpper (s : String) : String := ⟨s.toList.map Char.toUpper⟩

/-- Python `str.lower()` (ASCII fragment). -/
def pyLower (s : String) : String := ⟨s.toList.map Char.toLower⟩

/-- Python `s[:1]`: the first character of `s` as a string (empty when `s` is empty). -/
def take1 (s : String) : String := ⟨s.toList.take 1⟩

/-- `leadsWith n h` holds when the list `n` is an initial segment of `h`
(Python `h.startswith(n)` on character lists). -/
def leadsWith : List Char → List Char → Bool
  | [], _ => true
  | _ :: _, [] => false
  | a :: as, b :: bs => a = b && leadsWith as bs

/-- `hasSubList n h`: `n` occurs as a contiguous sublist of `h`. -/
def hasSubList (needle : List Char) : List Char → Bool
  | [] => leadsWith needle []
  | c :: rest => leadsWith needle (c :: rest) || hasSubList needle rest

/-- Python `needle in haystack` substring test. -/
def containsSub (haystack needle : String) : Bool :=
  hasSubList needle.toList haystack.toList

/-- Lexicographic `≤` on char lists (Python string ordering, code points). -/
def strLeB : List Char → List Char → Bool
  | [], _ => true
  | _ :: _, [] => false
  | a :: as, b :: bs => if a = b then strLeB as bs else decide (a < b)

/-- Insertion step of insertion sort by `strLeB`. -/
def insertStr (x : String) : List String → List String
  | [] => [x]
  | y :: ys => if strLeB x.toList y.toList then x :: y :: ys else y :: insertStr x ys

/-- Insertion sort of a list of strings; models Python `sorted`. -/
def sortStr : List String → List String
  | [] => []
  | x :: xs => insertStr x (sortStr xs)

/-! ## Configuration constants (`main.py` lines 34-45) -/

def INTERVIEWER_REQUIRED_SKILLS : List String :=
  ["excel", "formulas", "functions", "pivot tables", "charts",
   "data cleaning", "power query", "lookup", "index-match",
   "dynamic arrays", "vba", "macros", "goal seek", "solver"]

def MAX_QUESTIONS : Nat := 10
def SKILL_MATCH_THRESHOLD : ℚ := 7
def QUESTION_TIME_LIMIT_SEC : ℚ := 120
def CHEATING_THRESHOLD : ℚ := 0.75
def CONFIDENCE_MIN : ℚ := 0.4
def REQUIRED_SKILL_PASS_MIN : ℚ := 6.5
def SOFT_SKILL_PASS_MIN : ℚ := 5.5

/-! ## Skill extraction and overlap scoring (`main.py` lines 73-108) -/

/-- `normalize` (line 73): lowercase, then replace every character outside
`[a-z0-9\s\-\+\./]` with a space. -/
def isAllowedChar (c : Char) : Bool :=
  ('a' ≤ c && c ≤ 'z') || ('0' ≤ c && c ≤ '9') || pyIsSpace c ||
  c = '-' || c = '+' || c = '.' || c = '/'

def normalize (text : String) : String :=
  ⟨(pyLower text).toList.map (fun c => if isAllowedChar c then c else ' ')⟩

/-- The fixed dictionary of skill synonyms (line 78). -/
def KNOWN_SKILLS : List String :=
  ["excel","microsoft excel","vlookup","xlookup","index match","index-match",
   "pivot","pivot table","pivot tables","power query","powerpivot","power pivot",
   "charts","charting","dashboards","macros","vba","solver","goal seek",
   "dynamic arrays","filter","unique","sort","sumifs","countifs","iferror",
   "data cleaning","data validation","conditional formatting","what-if analysis"]

/-- Canonicalization of a detected synonym (lines 89-96). -/
def canonicalSkill (k : String) : String :=
  if k ∈ ["vlookup","xlookup","index match","index-match"] then "lookup"
  else if k ∈ ["pivot","pivot table","pivot tables"] then "pivot tables"
  else if k ∈ ["powerpivot","power pivot"] then "power query"
  else pyStrip (normalize k)

/-- `extract_resume_skills` (line 76): scan the synonym dictionary over the
normalized resume text, canonicalize hits, add `excel` when mentioned,
deduplicate and sort. -/
def extract_resume_skills (resume_text : String) : List String :=
  let text := normalize resume_text
  let detected := (KNOWN_SKILLS.filter (fun k => containsSub text (normalize k))).map
    canonicalSkill
  let detected := if containsSub text "excel" || containsSub text "microsoft excel" then
    detected ++ ["excel"] else detected
  sortStr detected.dedup

structure Overlap where
  overlap : Nat
  score_10 : ℚ
  matched : List String
deriving DecidableEq, Repr

/-- Round to two decimal places (models Python `round(x, 2)`). -/
def round2 (x : ℚ) : ℚ := (round (x * 100) : ℚ) / 100

/-- `top_required_overlap` (line 101): size of the intersection of the
normalized skill sets, scored against `min(top_n, len(required))`. -/
def top_required_overlap (resume_skills required : List String) (top_n : Nat) : Overlap :=
  let required_lower := required.map (fun x => pyStrip (normalize x))
  let resume_lower := resume_skills.map (fun x => pyStrip (normalize x))
  let matched := required_lower.dedup.filter (fun x => decide (x ∈ resume_lower))
  let overlap := matched.length
  let denom := min top_n required_lower.length
  let score_10 := ((overlap : ℚ) / ((max 1 denom : ℕ) : ℚ)) * 10
  ⟨overlap, round2 score_10, matched⟩

example : extract_resume_skills "I know Excel and VLOOKUP" = ["excel", "lookup"] := by decide

example :
    (top_required_overlap ["excel", "lookup"] INTERVIEWER_REQUIRED_SKILLS 10).overlap = 2 := by
  decide

example :
    (top_required_overlap ["excel", "lookup"] INTERVIEWER_REQUIRED_SKILLS 10).score_10 = 2 := by
  simp only [top_required_overlap]
  have h : (List.filter
      (fun x => decide (x ∈ List.map (fun x => pyStrip (normalize x)) ["excel", "lookup"]))
      (List.map (fun x => pyStrip (normalize x)) INTERVIEWER_REQUIRED_SKILLS).dedup).length
      = 2 := by decide
  have h2 : (List.map (fun x => pyStrip (normalize x)) INTERVIEWER_REQUIRED_SKILLS).length
      = 14 := by decide
  rw [h, h2]
  rw [round2, round_eq]
  norm_num

/-! ## Data model -/

inductive QType
  | multiple_choice
  | open_ended
deriving DecidableEq, Repr

structure Rubric where
  criteria : List String
  weights : List ℚ
  exemplar : String
deriving DecidableEq, Repr

/-- A question item.  `options`/`correct_answer` only matter for
`multiple_choice`; `rubric` only for `open_ended`.  The defaults model the
Python `dict.get` defaults used at grading time (`main.py` lines 345, 355). -/
structure Question where
  id : Nat
  qtype : QType
  text : String
  skill : String
  options : List String := []
  correct_answer : String := ""
  rubric : Rubric := ⟨["correctness", "clarity", "best_practices"], [0.5, 0.3, 0.2], ""⟩
deriving DecidableEq, Repr

/-- A recorded answer (`main.py` lines 369-380). -/
structure Answer where
  question_id : Nat
  atype : QType
  skill : String
  answer : String
  is_correct : Bool
  score : ℚ
  feedback : String
  confidence : ℚ
  cheating_delta : ℚ
  timed_out : Bool
deriving DecidableEq, Repr

/-- Session state (`main.py` lines 231-246 and 283-297).  `greeting` is
stored only for blocked sessions, matching the Python dict. -/
structure Session where
  candidate_name : String
  role : String
  level : String
  resume_text : String
  resume_skills : List String
  required_overlap : Overlap
  questions : List Question
  current_question_index : Int
  answers : List Answer
  blocked : Bool
  greeting : Option String
  cheating_signals : List ℚ
  soft_skill_observations : List String
  question_start_time : Option ℚ
deriving DecidableEq, Repr

/-- Result of the open-answer rubric-grading collaborator after the
`dict.get` defaults of `main.py` lines 357-360 are applied. -/
structure GradeResult where
  total : ℚ
  comments : String
  confidence : ℚ
deriving DecidableEq, Repr

/-- The external rubric-grading collaborator (with its fallback), passed in
as a parameter: `grade_open_answer_rubric` never raises and always yields a
usable result. -/
def Grader := String → String → Rubric → GradeResult

/-! ## Evaluation engine (`main.py` lines 396-441) -/

/-- Grouping of answer scores by skill tag in first-occurrence order
(`skill_scores` dict, lines 398-400). -/
def skillGroups (answers : List Answer) : List (String × List ℚ) :=
  (answers.map (fun a => a.skill)).dedup.map
    (fun sk => (sk, (answers.filter (fun a => a.skill == sk)).map (fun a => a.score)))

/-- The hardcoded extended tag list of line 405-407. -/
def EXTENDED_REQUIRED_TAGS : List String :=
  ["lookup", "pivot tables", "dynamic arrays", "power query", "vba", "solver",
   "data cleaning", "formulas", "functions", "charts"]

/-- Required-skill sub-score (lines 402-410). -/
def requiredSkillScore10 (s : Session) : ℚ :=
  let required_norm := ((skillGroups s.answers).filter (fun g =>
      decide (g.1 ∈ INTERVIEWER_REQUIRED_SKILLS.map normalize ∨
              g.1 ∈ EXTENDED_REQUIRED_TAGS))).map
    (fun g => g.2.sum / ((max 1 g.2.length : ℕ) : ℚ))
  let required_avg : ℚ :=
    if required_norm.isEmpty then 0
    else required_norm.sum / ((max 1 required_norm.length : ℕ) : ℚ)
  round2 (required_avg * 10)

/-- Soft-skill points for one observation tag (lines 414-418; Python `in`
is a substring test). -/
def softPointsOf (o : String) : ℚ :=
  if containsSub o "Structured" || containsSub o "Concise" then 1
  else if containsSub o "Verbose" || containsSub o "Brief" then 0.5
  else 0

/-- Soft-skill sub-score (lines 412-419). -/
def softSkillsScore10 (s : Session) : ℚ :=
  let obs := s.soft_skill_observations
  if obs.isEmpty then 6
  else round2 (min 10 ((obs.map softPointsOf).sum / ((max 1 obs.length : ℕ) : ℚ) * 10))

/-- Mean recorded confidence, defaulting to 0.6 with no answers (lines 421-422). -/
def avgConfidence (s : Session) : ℚ :=
  let confidences := s.answers.map (fun a => a.confidence)
  if confidences.isEmpty then 0.6
  else confidences.sum / ((max 1 confidences.length : ℕ) : ℚ)

/-- Cheating aggregate: capped sum of the recorded signals (lines 425-426). -/
def cheatingScore (s : Session) : ℚ :=
  if s.cheating_signals.isEmpty then 0 else min 1 s.cheating_signals.sum

structure EvalResult where
  required_skill_score_10 : ℚ
  soft_skills_score_10 : ℚ
  confidence_score_10 : ℚ
  cheating_score_0_1 : ℚ
  passed : Bool
deriving DecidableEq, Repr

/-- `evaluation` (line 396): the four sub-scores and the pass decision. -/
def evaluation (s : Session) : EvalResult :=
  let r := requiredSkillScore10 s
  let so := softSkillsScore10 s
  let ac := avgConfidence s
  let ch := cheatingScore s
  { required_skill_score_10 := r
    soft_skills_score_10 := so
    confidence_score_10 := round2 (ac * 10)
    cheating_score_0_1 := round2 ch
    passed := decide (r ≥ REQUIRED_SKILL_PASS_MIN ∧ so ≥ SOFT_SKILL_PASS_MIN ∧
                      ac ≥ CONFIDENCE_MIN ∧ ch ≤ CHEATING_THRESHOLD) }

/-! ## Summary generator (`main.py` lines 443-471) -/

/-- One per-answer feedback line of the summary (line 455-457). -/
def answerLine (a : Answer) : String :=
  "- Q" ++ toString a.question_id ++ " [" ++ a.skill ++ "]: score=" ++
  toString (round2 a.score) ++ (if a.timed_out then " (timeout)" else "") ++
  " | " ++ a.feedback

/-- `generate_summary` (line 443): pure rendering of the session. -/
def generate_summary (s : Session) : String :=
  let total_q := toString s.questions.length
  let correct_like := (s.answers.filter (fun a => decide (a.score ≥ 0.6))).length
  let er := evaluation s
  String.intercalate "\n"
    (["Interview Summary for " ++ s.candidate_name,
      "",
      "Questions answered: " ++ toString s.answers.length ++ "/" ++ total_q,
      "Approx. correct/strong answers: " ++ toString correct_like ++ "/" ++ total_q,
      "",
      "Per-question feedback:"] ++
     s.answers.map answerLine ++
     ["",
      "Aggregate ratings (out of 10 unless noted):",
      "- Required skills: " ++ toString er.required_skill_score_10,
      "- Soft skills: " ++ toString er.soft_skills_score_10,
      "- Confidence: " ++ toString er.confidence_score_10,
      "- Cheating indicator (0..1, lower is better): " ++ toString er.cheating_score_0_1,
      "",
      "Final decision: " ++ (if er.passed then "PASS" else "FAIL"),
      "",
      (if er.passed then
        "Recommendation: Candidate meets requirements; proceed to next stage."
       else
        "Recommendation: Focus on interviewer-required areas and provide clearer, structured reasoning on open-ended tasks. Reduce reliance on external references and keep answers concise.")])

/-! ## Submit operation (`main.py` lines 307-393) -/

structure SubmitResponse where
  feedback : String
  next_question : Option Question := none
  time_limit_sec : Option ℚ := none
  summary : Option String := none
deriving DecidableEq, Repr

/-- Outcome of scoring one submission (the block of lines 327-367):
feedback, correctness, per-question score, confidence, cheating delta and
the soft-skill observations appended to the session. -/
structure Graded where
  feedback : String
  is_correct : Bool
  score : ℚ
  confidence : ℚ
  cheating : ℚ
  obs : List String
deriving DecidableEq, Repr

/-- Scoring of the current question's submission (lines 327-367). -/
def gradeSubmission (q : Question) (answer_text : String) (timed_out : Bool)
    (grader : Grader) : Graded :=
  if timed_out then
    { feedback := "Skipped due to time limit.", is_correct := false, score := 0,
      confidence := 0.5, cheating := 0, obs := [] }
  else
    let cheat0 : ℚ :=
      (if answer_text.length > 1200 then 0.2 else 0) +
      (if containsSub answer_text "http://" || containsSub answer_text "https://" then 0.2
       else 0) +
      (if answer_text.toList.count '\n' > 30 then 0.1 else 0)
    match q.qtype with
    | QType.multiple_choice =>
      let correct := pyUpper (pyStrip q.correct_answer)
      let candidate := pyUpper (take1 answer_text)
      let ic := candidate = take1 correct
      { feedback := if ic then "Correct." else "Incorrect. Correct answer is " ++ correct ++ ".",
        is_correct := ic, score := if ic then 1 else 0, confidence := 0.6,
        cheating := cheat0,
        obs := [if answer_text.length < 6 then "Concise on MCQ." else "Verbose on MCQ."] }
    | QType.open_ended =>
      let res := grader q.text answer_text q.rubric
      { feedback := res.comments, is_correct := res.total ≥ 0.6, score := res.total,
        confidence := res.confidence,
        cheating := cheat0 +
          (if res.confidence < 0.4 ∧ answer_text.length > 800 then 0.2 else 0),
        obs := [if (answer_text.splitOn ".").length ≥ 3 then "Structured explanation."
                else "Brief explanation."] }

/-- The timeout test of lines 324-325: `started_at is not None and
(time.time() - started_at) > QUESTION_TIME_LIMIT_SEC`. -/
def timedOutCheck (question_start_time : Option ℚ) (now : ℚ) : Bool :=
  match question_start_time with
  | some startedAt => decide (now - startedAt > QUESTION_TIME_LIMIT_SEC)
  | none => false

/-- The answer record appended at lines 369-380. -/
def answerRecord (q : Question) (answer_text : String) (timed_out : Bool)
    (grader : Grader) : Answer :=
  let graded := gradeSubmission q answer_text timed_out grader
  { question_id := q.id, atype := q.qtype, skill := q.skill,
    answer := if timed_out then "" else answer_text,
    is_correct := graded.is_correct, score := graded.score,
    feedback := graded.feedback, confidence := graded.confidence,
    cheating_delta := graded.cheating, timed_out := timed_out }

/-- The placeholder used for (unreachable) out-of-bounds list indexing in
the embedding; the Python code indexes only under the bounds check. -/
def dummyQuestion : Question :=
  { id := 0, qtype := QType.open_ended, text := "", skill := "" }

/-- `submit_answer` (line 307), as a pure function of the stored session,
the submitted answer text, the current wall-clock time `now`, and the
grading collaborator. -/
def submit_answer (session : Session) (answerRaw : String) (now : ℚ)
    (grader : Grader) : Session × SubmitResponse :=
  if session.blocked then
    (session, { feedback := "Interview gated due to low skill overlap. Session ended.",
                summary := some (generate_summary session) })
  else if 0 ≤ session.current_question_index ∧
      session.current_question_index < (session.questions.length : Int) then
    let q := session.questions.getD session.current_question_index.toNat dummyQuestion
    let answer_text := pyStrip answerRaw
    let timed_out := timedOutCheck session.question_start_time now
    let graded := gradeSubmission q answer_text timed_out grader
    let ans := answerRecord q answer_text timed_out grader
    if session.current_question_index + 1 < (session.questions.length : Int) then
      let session' : Session :=
        { session with
          answers := session.answers ++ [ans],
          soft_skill_observations := session.soft_skill_observations ++ graded.obs,
          current_question_index := session.current_question_index + 1,
          cheating_signals := session.cheating_signals ++ [graded.cheating],
          question_start_time := some now }
      (session', { feedback := graded.feedback,
                   next_question := some (session.questions.getD
                     (session.current_question_index + 1).toNat dummyQuestion),
                   time_limit_sec := some QUESTION_TIME_LIMIT_SEC })
    else
      let session' : Session :=
        { session with
          answers := session.answers ++ [ans],
          soft_skill_observations := session.soft_skill_observations ++ graded.obs,
          cheating_signals := session.cheating_signals ++ [graded.cheating],
          question_start_time := none }
      (session', { feedback := graded.feedback,
                   summary := some (generate_summary session') })
  else
    (session, { feedback := "Interview already completed.",
                summary := some (generate_summary session) })

/-! ## Start operation (`main.py` lines 223-305) -/

structure StartRequest where
  candidate_name : String
  resume_text : String
  role : String
  level : String
deriving DecidableEq, Repr

structure StartResponse where
  session_id : String
  greeting : String
  blocked : Bool := false
  reason : Option String := none
  question : Option Question := none
  time_limit_sec : Option ℚ := none
deriving DecidableEq, Repr

/-- The one-question fallback bank of `start_interview` (lines 251-265). -/
def FALLBACK_QUESTION : Question :=
  { id := 1, qtype := QType.multiple_choice,
    text := "What is the main advantage of XLOOKUP over VLOOKUP?",
    options := ["A) Only vertical lookups", "B) Requires sorted data",
                "C) Looks left/right and resists column insertions", "D) Always approximate"],
    correct_answer := "C", skill := "lookup" }

/-- The rejection message of line 230 (`int(SKILL_MATCH_THRESHOLD)` is 7). -/
def rejectionReason (role : String) (ov : Overlap) : String :=
  "Insufficient skill overlap for " ++ role ++ ". Matched " ++ toString ov.overlap ++
  " skills; need >= 7 out of 10."

/-- `start_interview` (line 223).  `gen_questions` is the output of the
question-generation collaborator (`generate_questions_from_resume`);
`session_id` models the fresh uuid and `now` the wall clock. -/
def start_interview (req : StartRequest) (gen_questions : List Question) (now : ℚ)
    (session_id : String) : Session × StartResponse :=
  let resume_skills := extract_resume_skills req.resume_text
  let overlap := top_required_overlap resume_skills INTERVIEWER_REQUIRED_SKILLS 10
  if overlap.score_10 < SKILL_MATCH_THRESHOLD then
    let reason := rejectionReason req.role overlap
    let greeting := "Hello " ++ req.candidate_name ++
      ", thanks for sharing the resume. " ++ reason
    let s : Session :=
      { candidate_name := req.candidate_name, role := req.role, level := req.level,
        resume_text := req.resume_text, resume_skills := resume_skills,
        required_overlap := overlap, questions := [], current_question_index := -1,
        answers := [], blocked := true, greeting := some greeting,
        cheating_signals := [], soft_skill_observations := [],
        question_start_time := none }
    (s, { session_id := session_id, greeting := greeting, blocked := true,
          reason := some reason })
  else
    let questions := if gen_questions.isEmpty then [FALLBACK_QUESTION] else gen_questions
    let s : Session :=
      { candidate_name := req.candidate_name, role := req.role, level := req.level,
        resume_text := req.resume_text, resume_skills := resume_skills,
        required_overlap := overlap, questions := questions, current_question_index := 0,
        answers := [], blocked := false, greeting := none,
        cheating_signals := [], soft_skill_observations := [],
        question_start_time := some now }
    let greeting := "Hello " ++ req.candidate_name ++
      "! This is an Excel interview for the " ++ req.role ++ " role (" ++ req.level ++
      "). You'll answer up to " ++ toString questions.length ++
      " questions tailored to the resume. Each question has a 2 minute time limit."
    (s, { session_id := session_id, greeting := greeting,
          question := questions.head?, time_limit_sec := some QUESTION_TIME_LIMIT_SEC })

/-! ## Session store and transport-level submit (`main.py` lines 48, 307-312) -/

def SessionStore := List (String × Session)

def storeLookup (st : SessionStore) (sid : String) : Option Session :=
  match st with
  | [] => none
  | (k, v) :: rest => if k = sid then some v else storeLookup rest sid

def storeUpdate (st : SessionStore) (sid : String) (s : Session) : SessionStore :=
  match st with
  | [] => [(sid, s)]
  | (k, v) :: rest => if k = sid then (sid, s) :: rest else (k, v) :: storeUpdate rest sid s

inductive ApiError
  | sessionNotFound
deriving DecidableEq, Repr

structure SubmitRequest where
  session_id : String
  answer : String
deriving DecidableEq, Repr

/-- The `/submit` endpoint: looks the session up in the store, raising a
not-found error (HTTP 404, line 310) for unknown identifiers, otherwise
running `submit_answer` and writing the mutated session back. -/
def submit_endpoint (st : SessionStore) (req : SubmitRequest) (now : ℚ)
    (grader : Grader) : SessionStore × Except ApiError SubmitResponse :=
  match storeLookup st req.session_id with
  | none => (st, Except.error ApiError.sessionNotFound)
  | some s =>
    let r := submit_answer s req.answer now grader
    (storeUpdate st req.session_id r.1, Except.ok r.2)

/-- Sessions reachable through `start_interview` followed by any sequence
of `submit_answer` calls, for arbitrary collaborator outputs, clocks and
submitted texts. -/
inductive Reachable : Session → Prop
  | start (req : StartRequest) (gq : List Question) (now : ℚ) (sid : String) :
      Reachable (start_interview req gq now sid).1
  | step (s : Session) (ans : String) (now : ℚ) (g : Grader) :
      Reachable s → Reachable (submit_answer s ans now g).1

/-! ## Structural lemmas about the state machine -/

/-- Submissions to a blocked session, or one whose index is outside the
active range, change nothing and return the summary of the unchanged
session. -/
lemma submit_frame (s : Session) (a : String) (now : ℚ) (g : Grader)
    (h : s.blocked = true ∨
      ¬(0 ≤ s.current_question_index ∧
        s.current_question_index < (s.questions.length : Int))) :
    (submit_answer s a now g).1 = s ∧
    (submit_answer s a now g).2.summary = some (generate_summary s) := by
  unfold submit_answer
  rcases h with hb | hidx
  · rw [if_pos hb]
    exact ⟨rfl, rfl⟩
  · by_cases hb : s.blocked = true
    · rw [if_pos hb]
      exact ⟨rfl, rfl⟩
    · rw [if_neg hb, if_neg hidx]
      exact ⟨rfl, rfl⟩

/-- An in-range, non-final submission: the answer is recorded and the index
advances to the next question. -/
lemma submit_active_advance (s : Session) (a : String) (now : ℚ) (g : Grader)
    (hb : s.blocked = false) (i : ℕ) (hidx : s.current_question_index = (i : Int))
    (hadv : i + 1 < s.questions.length) :
    submit_answer s a now g =
      (let q := s.questions.getD i dummyQuestion
       let tmo := timedOutCheck s.question_start_time now
       let graded := gradeSubmission q (pyStrip a) tmo g
       ({ s with
          answers := s.answers ++ [answerRecord q (pyStrip a) tmo g],
          soft_skill_observations := s.soft_skill_observations ++ graded.obs,
          current_question_index := (i : Int) + 1,
          cheating_signals := s.cheating_signals ++ [graded.cheating],
          question_start_time := some now },
        { feedback := graded.feedback,
          next_question := some (s.questions.getD (i + 1) dummyQuestion),
          time_limit_sec := some QUESTION_TIME_LIMIT_SEC })) := by
  have hb' : ¬(s.blocked = true) := by rw [hb]; exact Bool.false_ne_true
  have hcond : 0 ≤ s.current_question_index ∧
      s.current_question_index < (s.questions.length : Int) := by omega
  have hcond2 : s.current_question_index + 1 < (s.questions.length : Int) := by omega
  unfold submit_answer
  rw [if_neg hb', if_pos hcond, if_pos hcond2]
  have ht : s.current_question_index.toNat = i := by omega
  have ht2 : (s.current_question_index + 1).toNat = i + 1 := by omega
  rw [ht, ht2, hidx]

/-- An in-range submission on the final question: the answer is recorded,
the start timestamp is cleared, and the final summary is returned.  Note
that `current_question_index` is left unchanged. -/
lemma submit_active_last (s : Session) (a : String) (now : ℚ) (g : Grader)
    (hb : s.blocked = false) (i : ℕ) (hidx : s.current_question_index = (i : Int))
    (hlast : i + 1 = s.questions.length) :
    submit_answer s a now g =
      (let q := s.questions.getD i dummyQuestion
       let tmo := timedOutCheck s.question_start_time now
       let graded := gradeSubmission q (pyStrip a) tmo g
       let s' : Session :=
         { s with
           answers := s.answers ++ [answerRecord q (pyStrip a) tmo g],
           soft_skill_observations := s.soft_skill_observations ++ graded.obs,
           cheating_signals := s.cheating_signals ++ [graded.cheating],
           question_start_time := none }
       (s', { feedback := graded.feedback,
              summary := some (generate_summary s') })) := by
  have hb' : ¬(s.blocked = true) := by rw [hb]; exact Bool.false_ne_true
  have hcond : 0 ≤ s.current_question_index ∧
      s.current_question_index < (s.questions.length : Int) := by omega
  have hcond2 : ¬(s.current_question_index + 1 < (s.questions.length : Int)) := by omega
  unfold submit_answer
  rw [if_neg hb', if_pos hcond, if_neg hcond2]
  have ht : s.current_question_index.toNat = i := by omega
  rw [ht]

/-- The session created by `start_interview` is either blocked with no
questions and index −1, or active at index 0 on a non-empty question list;
either way it has no answers, signals or observations yet. -/
lemma start_fst_shape (req : StartRequest) (gq : List Question) (now : ℚ) (sid : String) :
    (start_interview req gq now sid).1.answers = [] ∧
    (start_interview req gq now sid).1.cheating_signals = [] ∧
    (start_interview req gq now sid).1.soft_skill_observations = [] ∧
    ((start_interview req gq now sid).1.blocked = true ∧
     (start_interview req gq now sid).1.current_question_index = -1 ∧
     (start_interview req gq now sid).1.questions = [] ∨
     (start_interview req gq now sid).1.blocked = false ∧
     (start_interview req gq now sid).1.current_question_index = 0 ∧
     (start_interview req gq now sid).1.questions ≠ []) := by
  unfold start_interview
  by_cases h : (top_required_overlap (extract_resume_skills req.resume_text)
      INTERVIEWER_REQUIRED_SKILLS 10).score_10 < SKILL_MATCH_THRESHOLD
  · rw [if_pos h]
    exact ⟨rfl, rfl, rfl, Or.inl ⟨rfl, rfl, rfl⟩⟩
  · rw [if_neg h]
    refine ⟨rfl, rfl, rfl, Or.inr ⟨rfl, rfl, ?_⟩⟩
    show (if gq.isEmpty then [FALLBACK_QUESTION] else gq) ≠ []
    cases hgq : gq.isEmpty
    · rw [if_neg (by simp)]
      exact fun he => by rw [he] at hgq; simp at hgq
    · rw [if_pos rfl]
      exact List.cons_ne_nil _ _

/-! ## Cheating deltas are multiples of one tenth -/

/-- A rational that is a nonnegative multiple of `1/10`; every per-answer
cheating delta has this form, so the aggregate survives `round2` intact. -/
def IsTenth (x : ℚ) : Prop := ∃ k : ℕ, x = (k : ℚ) / 10

lemma IsTenth.add {x y : ℚ} (hx : IsTenth x) (hy : IsTenth y) : IsTenth (x + y) := by
  obtain ⟨k, hk⟩ := hx
  obtain ⟨m, hm⟩ := hy
  exact ⟨k + m, by rw [hk, hm]; push_cast; ring⟩

lemma IsTenth_ite (c : Prop) [Decidable c] {x y : ℚ} (hx : IsTenth x) (hy : IsTenth y) :
    IsTenth (if c then x else y) := by
  by_cases h : c
  · rwa [if_pos h]
  · rwa [if_neg h]

lemma IsTenth_zero : IsTenth 0 := ⟨0, by norm_num⟩

lemma IsTenth_pointOne : IsTenth 0.1 := ⟨1, by norm_num⟩

lemma IsTenth_pointTwo : IsTenth 0.2 := ⟨2, by norm_num⟩

lemma gradeSubmission_cheating_tenth (q : Question) (t : String) (tmo : Bool)
    (g : Grader) : IsTenth (gradeSubmission q t tmo g).cheating := by
  unfold gradeSubmission
  by_cases h : tmo = true
  · rw [if_pos h]
    exact IsTenth_zero
  · rw [if_neg h]
    cases q.qtype <;> dsimp only
    · exact ((IsTenth_ite _ IsTenth_pointTwo IsTenth_zero).add
        (IsTenth_ite _ IsTenth_pointTwo IsTenth_zero)).add
        (IsTenth_ite _ IsTenth_pointOne IsTenth_zero)
    · exact (((IsTenth_ite _ IsTenth_pointTwo IsTenth_zero).add
        (IsTenth_ite _ IsTenth_pointTwo IsTenth_zero)).add
        (IsTenth_ite _ IsTenth_pointOne IsTenth_zero)).add
        (IsTenth_ite _ IsTenth_pointTwo IsTenth_zero)

lemma IsTenth_sum {l : List ℚ} (h : ∀ d ∈ l, IsTenth d) : IsTenth l.sum := by
  induction l with
  | nil => simpa using IsTenth_zero
  | cons x xs ih =>
    rw [List.sum_cons]
    exact (h x (List.mem_cons_self x xs)).add
      (ih fun d hd => h d (List.mem_cons_of_mem x hd))

lemma IsTenth_min_one {x : ℚ} (hx : IsTenth x) : IsTenth (min 1 x) := by
  obtain ⟨k, hk⟩ := hx
  refine ⟨min 10 k, ?_⟩
  rw [hk]
  rcases le_total (10 : ℕ) k with h | h
  · rw [min_eq_left h, min_eq_left]
    · norm_num
    · rw [le_div_iff₀ (by norm_num : (0:ℚ) < 10)]
      have : (10 : ℚ) ≤ (k : ℚ) := by exact_mod_cast h
      linarith
  · rw [min_eq_right h, min_eq_right]
    rw [div_le_iff₀ (by norm_num : (0:ℚ) < 10)]
    have : (k : ℚ) ≤ (10 : ℚ) := by exact_mod_cast h
    linarith

lemma round2_tenth {x : ℚ} (hx : IsTenth x) : round2 x = x := by
  obtain ⟨k, hk⟩ := hx
  subst hk
  unfold round2
  have h1 : (k : ℚ) / 10 * 100 = ((10 * k : ℕ) : ℚ) := by push_cast; ring
  rw [h1, round_natCast]
  push_cast
  field_simp
  ring

/-- Combined shape of one `submit_answer` call: either a no-op, or an
append-only mutation that advances the index when questions remain and
leaves it unchanged on the final question. -/
lemma submit_fst_shape (s : Session) (a : String) (now : ℚ) (g : Grader) :
    (submit_answer s a now g).1 = s ∨
    ((0 ≤ s.current_question_index ∧
      s.current_question_index < (s.questions.length : Int)) ∧
     ∃ ans : Answer,
       IsTenth ans.cheating_delta ∧
       (submit_answer s a now g).1.questions = s.questions ∧
       (submit_answer s a now g).1.blocked = s.blocked ∧
       (submit_answer s a now g).1.answers = s.answers ++ [ans] ∧
       (submit_answer s a now g).1.cheating_signals =
         s.cheating_signals ++ [ans.cheating_delta] ∧
       ((s.current_question_index + 1 < (s.questions.length : Int) ∧
         (submit_answer s a now g).1.current_question_index =
           s.current_question_index + 1) ∨
        (¬(s.current_question_index + 1 < (s.questions.length : Int)) ∧
         (submit_answer s a now g).1.current_question_index =
           s.current_question_index))) := by
  by_cases hb : s.blocked = true
  · exact Or.inl (submit_frame s a now g (Or.inl hb)).1
  · by_cases hcond : 0 ≤ s.current_question_index ∧
        s.current_question_index < (s.questions.length : Int)
    · right
      refine ⟨hcond, ?_⟩
      have hb' : s.blocked = false := by
        cases h : s.blocked
        · rfl
        · exact absurd h hb
      set i := s.current_question_index.toNat with hi
      have hidx : s.current_question_index = (i : Int) := by omega
      by_cases hadv : i + 1 < s.questions.length
      · rw [submit_active_advance s a now g hb' i hidx hadv]
        refine ⟨answerRecord (s.questions.getD i dummyQuestion) (pyStrip a)
          (timedOutCheck s.question_start_time now) g,
          gradeSubmission_cheating_tenth _ _ _ _, rfl, rfl, rfl, rfl, Or.inl ⟨by omega, by rw [hidx]⟩⟩
      · have hlast : i + 1 = s.questions.length := by omega
        rw [submit_active_last s a now g hb' i hidx hlast]
        refine ⟨answerRecord (s.questions.getD i dummyQuestion) (pyStrip a)
          (timedOutCheck s.question_start_time now) g,
          gradeSubmission_cheating_tenth _ _ _ _, rfl, rfl, rfl, rfl, Or.inr ⟨by omega, rfl⟩⟩
    · exact Or.inl (submit_frame s a now g (Or.inr hcond)).1

/-! ## Concrete fixtures used by witnesses and counterexamples -/

/-- The deterministic grading fallback of lines 216: total 0, comments
"Grader unavailable.", confidence 0.5; used as a concrete collaborator. -/
def gZero : Grader := fun _ _ _ => ⟨0, "Grader unavailable.", 0.5⟩

/-- A concrete blocked session (as produced by a gated start). -/
def sBlocked : Session :=
  { candidate_name := "Jane Doe", role := "Analyst", level := "Intermediate",
    resume_text := "nothing relevant", resume_skills := [],
    required_overlap := ⟨0, 0, []⟩, questions := [],
    current_question_index := -1, answers := [], blocked := true,
    greeting := some "Hello Jane Doe, thanks for sharing the resume.",
    cheating_signals := [], soft_skill_observations := [],
    question_start_time := none }

/-- A concrete active one-question session whose question was presented at
time 0 (used to exercise the timeout path at time 121). -/
def sOneQuestion : Session :=
  { candidate_name := "Pat", role := "Analyst", level := "Intermediate",
    resume_text := "Excel", resume_skills := ["excel"],
    required_overlap := ⟨7, 7, ["excel"]⟩,
    questions := [FALLBACK_QUESTION], current_question_index := 0, answers := [],
    blocked := false, greeting := none, cheating_signals := [],
    soft_skill_observations := [], question_start_time := none }

/-- Variant of `sOneQuestion` with a recorded start timestamp of 0. -/
def sOneQuestionTimed : Session :=
  { sOneQuestion with question_start_time := some 0 }

/-- A concrete active session whose multiple-choice question stores the
correct-answer label " C" with a leading space. -/
def sSpacedCLabel : Session :=
  { sOneQuestion with
    questions := [{ id := 1, qtype := QType.multiple_choice,
                    text := "Pick one", skill := "general",
                    options := ["A", "B", "C", "D"], correct_answer := " C" }] }

/-- A concrete active session whose multiple-choice question stores a
whitespace-only correct-answer label. -/
def sSpaceLabel : Session :=
  { sOneQuestion with
    questions := [{ id := 1, qtype := QType.multiple_choice,
                    text := "Pick one", skill := "general",
                    options := ["A", "B"], correct_answer := " " }] }

/-! ## C1: the pass decision is the conjunction of the four gates -/

/-- C1: for every session, the evaluation's pass decision is true exactly
when the required-skill score is at least 6.5, the soft-skill score at
least 5.5, the mean recorded confidence at least 0.4 and the cheating
score at most 0.75; and whenever any one of the four gates fails the
decision is false regardless of the other three. -/
theorem passed_iff_four_gates (s : Session) :
    ((evaluation s).passed = true ↔
      (REQUIRED_SKILL_PASS_MIN ≤ requiredSkillScore10 s ∧
       SOFT_SKILL_PASS_MIN ≤ softSkillsScore10 s ∧
       CONFIDENCE_MIN ≤ avgConfidence s ∧
       cheatingScore s ≤ CHEATING_THRESHOLD)) ∧
    ((requiredSkillScore10 s < REQUIRED_SKILL_PASS_MIN ∨
      softSkillsScore10 s < SOFT_SKILL_PASS_MIN ∨
      avgConfidence s < CONFIDENCE_MIN ∨
      CHEATING_THRESHOLD < cheatingScore s) →
     (evaluation s).passed = false) := by
  have hiff : (evaluation s).passed = true ↔
      (REQUIRED_SKILL_PASS_MIN ≤ requiredSkillScore10 s ∧
       SOFT_SKILL_PASS_MIN ≤ softSkillsScore10 s ∧
       CONFIDENCE_MIN ≤ avgConfidence s ∧
       cheatingScore s ≤ CHEATING_THRESHOLD) := by
    simp [evaluation, ge_iff_le]
  refine ⟨hiff, fun hfail => ?_⟩
  cases hp : (evaluation s).passed
  · rfl
  · exfalso
    obtain ⟨h1, h2, h3, h4⟩ := hiff.mp hp
    rcases hfail with h | h | h | h <;> linarith

/-- Witness for C1 at a concrete session: the blocked fixture has
required-skill score 0, so the decision is false. -/
theorem passed_iff_four_gates_witness : (evaluation sBlocked).passed = false := by
  apply (passed_iff_four_gates sBlocked).2
  left
  have h : requiredSkillScore10 sBlocked = 0 := by
    simp only [requiredSkillScore10, skillGroups, sBlocked]
    norm_num [round2]
  rw [h]
  norm_num [REQUIRED_SKILL_PASS_MIN]

/-! ## C2: terminal-state submissions are idempotent no-ops -/

/-- C2: submitting to a session that is blocked or whose index equals the
question count changes no session state and returns the summary of the
unchanged state; a second such submission returns the same summary. -/
theorem terminal_submit_idempotent (s : Session) (a : String) (now : ℚ) (g : Grader)
    (h : s.blocked = true ∨ s.current_question_index = (s.questions.length : Int)) :
    (submit_answer s a now g).1 = s ∧
    (submit_answer s a now g).2.summary = some (generate_summary s) ∧
    ∀ (a' : String) (now' : ℚ) (g' : Grader),
      (submit_answer (submit_answer s a now g).1 a' now' g').2.summary =
        (submit_answer s a now g).2.summary := by
  have hterm : ∀ (a₀ : String) (now₀ : ℚ) (g₀ : Grader),
      (submit_answer s a₀ now₀ g₀).1 = s ∧
      (submit_answer s a₀ now₀ g₀).2.summary = some (generate_summary s) := by
    intro a₀ now₀ g₀
    apply submit_frame
    rcases h with hb | hidx
    · exact Or.inl hb
    · exact Or.inr (by omega)
  obtain ⟨h1, h2⟩ := hterm a now g
  refine ⟨h1, h2, fun a' now' g' => ?_⟩
  rw [h1, (hterm a' now' g').2, h2]

/-- Witness for C2 at the concrete blocked fixture, including a pair of
consecutive submissions returning the same summary. -/
theorem terminal_submit_idempotent_witness :
    (submit_answer sBlocked "hello" 3 gZero).1 = sBlocked ∧
    (submit_answer sBlocked "hello" 3 gZero).2.summary =
      some (generate_summary sBlocked) ∧
    (submit_answer (submit_answer sBlocked "hello" 3 gZero).1 "again" 9 gZero).2.summary =
      (submit_answer sBlocked "hello" 3 gZero).2.summary := by
  have h := terminal_submit_idempotent sBlocked "hello" 3 gZero (Or.inl rfl)
  exact ⟨h.1, h.2.1, h.2.2 "again" 9 gZero⟩

/-! ## C9: unknown session identifiers fail without mutating anything -/

/-- C9: a submit request whose session id is not in the store yields the
not-found error and leaves the store exactly as it was. -/
theorem submit_unknown_session_error (st : SessionStore) (req : SubmitRequest)
    (now : ℚ) (g : Grader) (h : storeLookup st req.session_id = none) :
    submit_endpoint st req now g = (st, Except.error ApiError.sessionNotFound) := by
  unfold submit_endpoint
  rw [h]

/-- Witness for C9: the empty store knows no session. -/
theorem submit_unknown_session_error_witness :
    submit_endpoint [] ⟨"missing-id", "hi"⟩ 0 gZero =
      ([], Except.error ApiError.sessionNotFound) :=
  submit_unknown_session_error [] ⟨"missing-id", "hi"⟩ 0 gZero rfl

/-! ## C3: the index invariant for reachable sessions -/

/-- C3: every session reachable through `start_interview` and any sequence
of `submit_answer` calls has its index at −1 (blocked), in `[0, number of
questions)` (active), or equal to the number of questions (completed); in
particular it never exceeds the question count, and the question list is
empty only for blocked sessions. -/
theorem reachable_index_invariant (s : Session) (hs : Reachable s) :
    (s.current_question_index = -1 ∨
     (0 ≤ s.current_question_index ∧
      s.current_question_index < (s.questions.length : Int)) ∨
     s.current_question_index = (s.questions.length : Int)) ∧
    s.current_question_index ≤ (s.questions.length : Int) ∧
    (s.questions = [] → s.blocked = true) := by
  induction hs with
  | start req gq now sid =>
    obtain ⟨-, -, -, hcase⟩ := start_fst_shape req gq now sid
    rcases hcase with ⟨hb, hidx, hq⟩ | ⟨hb, hidx, hq⟩
    · refine ⟨Or.inl hidx, ?_, fun _ => hb⟩
      rw [hidx, hq]
      simp
    · have hlen : 0 < (start_interview req gq now sid).1.questions.length :=
        List.length_pos.mpr hq
      exact ⟨Or.inr (Or.inl ⟨by omega, by omega⟩), by omega, fun he => absurd he hq⟩
  | step s a now g hr ih =>
    rcases submit_fst_shape s a now g with heq | ⟨⟨hge, hlt⟩, ans, -, hq, hb, -, -, hidx⟩
    · rw [heq]
      exact ih
    · rw [hq, hb]
      rcases hidx with ⟨hroom, hset⟩ | ⟨hnoroom, hset⟩
      · exact ⟨Or.inr (Or.inl ⟨by omega, by omega⟩), by omega, fun he => by
          rw [he] at hlt; simp at hlt; omega⟩
      · exact ⟨Or.inr (Or.inl ⟨by omega, by omega⟩), by omega, fun he => by
          rw [he] at hlt; simp at hlt; omega⟩

/-- Witness for C3 at a concretely started session. -/
theorem reachable_index_invariant_witness :
    ((start_interview ⟨"Jane Doe", "nothing relevant", "Analyst", "Junior"⟩
        [] 0 "sid-1").1.current_question_index = -1 ∨
     (0 ≤ (start_interview ⟨"Jane Doe", "nothing relevant", "Analyst", "Junior"⟩
        [] 0 "sid-1").1.current_question_index ∧
      (start_interview ⟨"Jane Doe", "nothing relevant", "Analyst", "Junior"⟩
        [] 0 "sid-1").1.current_question_index <
      ((start_interview ⟨"Jane Doe", "nothing relevant", "Analyst", "Junior"⟩
        [] 0 "sid-1").1.questions.length : Int)) ∨
     (start_interview ⟨"Jane Doe", "nothing relevant", "Analyst", "Junior"⟩
        [] 0 "sid-1").1.current_question_index =
      ((start_interview ⟨"Jane Doe", "nothing relevant", "Analyst", "Junior"⟩
        [] 0 "sid-1").1.questions.length : Int)) ∧
    (start_interview ⟨"Jane Doe", "nothing relevant", "Analyst", "Junior"⟩
        [] 0 "sid-1").1.current_question_index ≤
      ((start_interview ⟨"Jane Doe", "nothing relevant", "Analyst", "Junior"⟩
        [] 0 "sid-1").1.questions.length : Int) ∧
    ((start_interview ⟨"Jane Doe", "nothing relevant", "Analyst", "Junior"⟩
        [] 0 "sid-1").1.questions = [] →
     (start_interview ⟨"Jane Doe", "nothing relevant", "Analyst", "Junior"⟩
        [] 0 "sid-1").1.blocked = true) :=
  reachable_index_invariant _
    (Reachable.start ⟨"Jane Doe", "nothing relevant", "Analyst", "Junior"⟩ [] 0 "sid-1")

/-! ## C8: the cheating score is the capped sum of the recorded deltas -/

/-- For reachable sessions the signal list is exactly the list of recorded
per-answer cheating deltas, each a nonnegative multiple of one tenth. -/
lemma reachable_signals (s : Session) (hs : Reachable s) :
    s.cheating_signals = s.answers.map (fun a => a.cheating_delta) ∧
    ∀ d ∈ s.cheating_signals, IsTenth d := by
  induction hs with
  | start req gq now sid =>
    obtain ⟨ha, hc, -, -⟩ := start_fst_shape req gq now sid
    rw [ha, hc]
    exact ⟨rfl, by simp⟩
  | step s a now g hr ih =>
    obtain ⟨ihmap, ihten⟩ := ih
    rcases submit_fst_shape s a now g with heq | ⟨-, ans, hten, -, -, hans, hsig, -⟩
    · rw [heq]
      exact ⟨ihmap, ihten⟩
    · rw [hans, hsig, ihmap]
      refine ⟨by simp, fun d hd => ?_⟩
      rcases List.mem_append.mp hd with hd | hd
      · exact ihten d (by rw [ihmap]; exact hd)
      · rw [List.mem_singleton.mp hd]
        exact hten

/-- C8: for every reachable session the evaluation's cheating score equals
the sum of the recorded per-question cheating deltas capped above at 1,
and is 0 when no answers are recorded. -/
theorem cheating_score_capped_sum (s : Session) (hs : Reachable s) :
    (evaluation s).cheating_score_0_1 =
      min 1 ((s.answers.map (fun a => a.cheating_delta)).sum) ∧
    (s.answers = [] → (evaluation s).cheating_score_0_1 = 0) := by
  obtain ⟨hmap, hten⟩ := reachable_signals s hs
  have hval : (evaluation s).cheating_score_0_1 = round2 (cheatingScore s) := rfl
  have hsum : IsTenth ((s.answers.map (fun a => a.cheating_delta)).sum) := by
    apply IsTenth_sum
    intro d hd
    exact hten d (by rw [hmap]; exact hd)
  have hmain : (evaluation s).cheating_score_0_1 =
      min 1 ((s.answers.map (fun a => a.cheating_delta)).sum) := by
    rw [hval]
    unfold cheatingScore
    by_cases he : s.cheating_signals.isEmpty
    · have he' : s.answers.map (fun a => a.cheating_delta) = [] := by
        rw [← hmap]
        exact List.isEmpty_iff.mp he
      rw [if_pos he, he']
      have h0 : round2 0 = 0 := round2_tenth IsTenth_zero
      rw [h0, List.sum_nil]
      norm_num
    · rw [if_neg he, hmap]
      exact round2_tenth (IsTenth_min_one hsum)
  refine ⟨hmain, fun hempty => ?_⟩
  rw [hmain, hempty]
  norm_num

/-- Witness for C8 at a concretely started session. -/
theorem cheating_score_capped_sum_witness :
    ((evaluation (start_interview ⟨"Jane Doe", "nothing relevant", "Analyst", "Junior"⟩
        [] 0 "sid-2").1).cheating_score_0_1 =
      min 1 (((start_interview ⟨"Jane Doe", "nothing relevant", "Analyst", "Junior"⟩
        [] 0 "sid-2").1.answers.map (fun a => a.cheating_delta)).sum)) ∧
    ((start_interview ⟨"Jane Doe", "nothing relevant", "Analyst", "Junior"⟩
        [] 0 "sid-2").1.answers = [] →
     (evaluation (start_interview ⟨"Jane Doe", "nothing relevant", "Analyst", "Junior"⟩
        [] 0 "sid-2").1).cheating_score_0_1 = 0) :=
  cheating_score_capped_sum _
    (Reachable.start ⟨"Jane Doe", "nothing relevant", "Analyst", "Junior"⟩ [] 0 "sid-2")

/-! ## C7: the overlap scorer -/

/-- C7: the overlap scorer returns the size of the intersection of the two
normalized skill sets, the score `overlap / min(top_n, R) * 10` rounded to
two decimals (for a positive divisor), and the matched-skill list, which
contains exactly the normalized skills present on both sides. -/
theorem top_required_overlap_spec (resume_skills required : List String) (top_n : Nat)
    (hpos : 0 < min top_n required.length) :
    (top_required_overlap resume_skills required top_n).overlap =
      ((required.map (fun x => pyStrip (normalize x))).toFinset ∩
       (resume_skills.map (fun x => pyStrip (normalize x))).toFinset).card ∧
    (top_required_overlap resume_skills required top_n).score_10 =
      round2 (((top_required_overlap resume_skills required top_n).overlap : ℚ) /
        ((min top_n required.length : ℕ) : ℚ) * 10) ∧
    ∀ x, x ∈ (top_required_overlap resume_skills required top_n).matched ↔
      (x ∈ required.map (fun y => pyStrip (normalize y)) ∧
       x ∈ resume_skills.map (fun y => pyStrip (normalize y))) := by
  have hlenmap : (required.map (fun x => pyStrip (normalize x))).length =
      required.length := List.length_map _ _
  have hmax : max 1 (min top_n (required.map (fun x => pyStrip (normalize x))).length) =
      min top_n required.length := by
    rw [hlenmap]
    omega
  refine ⟨?_, ?_, ?_⟩
  · show (List.filter _ (required.map (fun x => pyStrip (normalize x))).dedup).length = _
    set R := required.map (fun x => pyStrip (normalize x)) with hR
    set S := resume_skills.map (fun x => pyStrip (normalize x)) with hS
    have hnodup : (R.dedup.filter (fun x => decide (x ∈ S))).Nodup :=
      (List.nodup_dedup R).filter _
    rw [← List.toFinset_card_of_nodup hnodup]
    congr 1
    ext x
    simp [List.mem_filter, List.mem_dedup, Finset.mem_inter]
  · show round2 _ = _
    rw [hmax]
    rfl
  · intro x
    show x ∈ List.filter _ (required.map (fun x => pyStrip (normalize x))).dedup ↔ _
    simp [List.mem_filter, List.mem_dedup]

/-- Witness for C7 at concrete inputs. -/
theorem top_required_overlap_spec_witness :
    ((top_required_overlap ["excel"] ["excel", "vba"] 10).overlap =
      ((["excel", "vba"].map (fun x => pyStrip (normalize x))).toFinset ∩
       (["excel"].map (fun x => pyStrip (normalize x))).toFinset).card ∧
     (top_required_overlap ["excel"] ["excel", "vba"] 10).score_10 =
      round2 (((top_required_overlap ["excel"] ["excel", "vba"] 10).overlap : ℚ) /
        ((min 10 (["excel", "vba"] : List String).length : ℕ) : ℚ) * 10) ∧
     ∀ x, x ∈ (top_required_overlap ["excel"] ["excel", "vba"] 10).matched ↔
      (x ∈ ["excel", "vba"].map (fun y => pyStrip (normalize y)) ∧
       x ∈ ["excel"].map (fun y => pyStrip (normalize y)))) :=
  top_required_overlap_spec ["excel"] ["excel", "vba"] 10 (by decide)

/-! ## C6: the start gate -/

/-- C6: when the computed overlap score is below 7 the session is created
blocked — empty question list, index −1, no start timestamp, a rejection
message — and the response carries `blocked = true` and no question; when
the score is at least 7 the session is created active at index 0 with a
non-empty question list and a start timestamp, and the response carries
the first question. -/
theorem start_gate_spec (req : StartRequest) (gq : List Question) (now : ℚ)
    (sid : String) :
    ((top_required_overlap (extract_resume_skills req.resume_text)
        INTERVIEWER_REQUIRED_SKILLS 10).score_10 < SKILL_MATCH_THRESHOLD →
      ((start_interview req gq now sid).1.blocked = true ∧
       (start_interview req gq now sid).1.questions = [] ∧
       (start_interview req gq now sid).1.current_question_index = -1 ∧
       (start_interview req gq now sid).1.question_start_time = none ∧
       (start_interview req gq now sid).2.blocked = true ∧
       (start_interview req gq now sid).2.question = none ∧
       (start_interview req gq now sid).2.reason =
         some (rejectionReason req.role (top_required_overlap
           (extract_resume_skills req.resume_text) INTERVIEWER_REQUIRED_SKILLS 10)))) ∧
    (SKILL_MATCH_THRESHOLD ≤ (top_required_overlap (extract_resume_skills req.resume_text)
        INTERVIEWER_REQUIRED_SKILLS 10).score_10 →
      ((start_interview req gq now sid).1.blocked = false ∧
       (start_interview req gq now sid).1.current_question_index = 0 ∧
       (start_interview req gq now sid).1.questions ≠ [] ∧
       (start_interview req gq now sid).1.question_start_time = some now ∧
       (start_interview req gq now sid).2.blocked = false ∧
       (start_interview req gq now sid).2.question =
         (start_interview req gq now sid).1.questions.head?)) := by
  by_cases h : (top_required_overlap (extract_resume_skills req.resume_text)
      INTERVIEWER_REQUIRED_SKILLS 10).score_10 < SKILL_MATCH_THRESHOLD
  · refine ⟨fun _ => ?_, fun hge => absurd h (not_lt.mpr hge)⟩
    unfold start_interview
    rw [if_pos h]
    exact ⟨rfl, rfl, rfl, rfl, rfl, rfl, rfl⟩
  · refine ⟨fun hlt => absurd hlt h, fun _ => ?_⟩
    unfold start_interview
    rw [if_neg h]
    refine ⟨rfl, rfl, ?_, rfl, rfl, rfl⟩
    show (if gq.isEmpty then [FALLBACK_QUESTION] else gq) ≠ []
    cases hgq : gq.isEmpty
    · rw [if_neg (by simp)]
      exact fun he => by rw [he] at hgq; simp at hgq
    · rw [if_pos rfl]
      exact List.cons_ne_nil _ _

/-- The overlap score computed from the fixture resume with no recognized
skills is 0. -/
lemma score_nothing_relevant :
    (top_required_overlap (extract_resume_skills "nothing relevant")
      INTERVIEWER_REQUIRED_SKILLS 10).score_10 = 0 := by
  simp only [top_required_overlap]
  have h : (List.filter
      (fun x => decide (x ∈ List.map (fun x => pyStrip (normalize x))
        (extract_resume_skills "nothing relevant")))
      (List.map (fun x => pyStrip (normalize x)) INTERVIEWER_REQUIRED_SKILLS).dedup).length
      = 0 := by decide
  have h2 : (List.map (fun x => pyStrip (normalize x)) INTERVIEWER_REQUIRED_SKILLS).length
      = 14 := by decide
  rw [h, h2, round2, round_eq]
  norm_num

/-- The overlap score computed from the strong fixture resume is 7. -/
lemma score_strong_resume :
    (top_required_overlap
      (extract_resume_skills "Excel vlookup pivot tables power query charts vba macros")
      INTERVIEWER_REQUIRED_SKILLS 10).score_10 = 7 := by
  simp only [top_required_overlap]
  have h : (List.filter
      (fun x => decide (x ∈ List.map (fun x => pyStrip (normalize x))
        (extract_resume_skills "Excel vlookup pivot tables power query charts vba macros")))
      (List.map (fun x => pyStrip (normalize x)) INTERVIEWER_REQUIRED_SKILLS).dedup).length
      = 7 := by decide
  have h2 : (List.map (fun x => pyStrip (normalize x)) INTERVIEWER_REQUIRED_SKILLS).length
      = 14 := by decide
  rw [h, h2, round2, round_eq]
  norm_num

/-- Witness for C6: one concretely blocked start and one concretely active
start. -/
theorem start_gate_spec_witness :
    ((start_interview ⟨"Jane Doe", "nothing relevant", "Analyst", "Junior"⟩
        [] 2 "sid-b").1.blocked = true ∧
     (start_interview ⟨"Jane Doe", "nothing relevant", "Analyst", "Junior"⟩
        [] 2 "sid-b").1.questions = [] ∧
     (start_interview ⟨"Jane Doe", "nothing relevant", "Analyst", "Junior"⟩
        [] 2 "sid-b").1.current_question_index = -1 ∧
     (start_interview ⟨"Jane Doe", "nothing relevant", "Analyst", "Junior"⟩
        [] 2 "sid-b").1.question_start_time = none ∧
     (start_interview ⟨"Jane Doe", "nothing relevant", "Analyst", "Junior"⟩
        [] 2 "sid-b").2.blocked = true ∧
     (start_interview ⟨"Jane Doe", "nothing relevant", "Analyst", "Junior"⟩
        [] 2 "sid-b").2.question = none ∧
     (start_interview ⟨"Jane Doe", "nothing relevant", "Analyst", "Junior"⟩
        [] 2 "sid-b").2.reason = some (rejectionReason "Analyst"
          (top_required_overlap (extract_resume_skills "nothing relevant")
            INTERVIEWER_REQUIRED_SKILLS 10))) ∧
    ((start_interview ⟨"Sam", "Excel vlookup pivot tables power query charts vba macros",
        "Analyst", "Senior"⟩ [] 5 "sid-c").1.blocked = false ∧
     (start_interview ⟨"Sam", "Excel vlookup pivot tables power query charts vba macros",
        "Analyst", "Senior"⟩ [] 5 "sid-c").1.current_question_index = 0 ∧
     (start_interview ⟨"Sam", "Excel vlookup pivot tables power query charts vba macros",
        "Analyst", "Senior"⟩ [] 5 "sid-c").1.questions ≠ [] ∧
     (start_interview ⟨"Sam", "Excel vlookup pivot tables power query charts vba macros",
        "Analyst", "Senior"⟩ [] 5 "sid-c").1.question_start_time = some 5 ∧
     (start_interview ⟨"Sam", "Excel vlookup pivot tables power query charts vba macros",
        "Analyst", "Senior"⟩ [] 5 "sid-c").2.blocked = false ∧
     (start_interview ⟨"Sam", "Excel vlookup pivot tables power query charts vba macros",
        "Analyst", "Senior"⟩ [] 5 "sid-c").2.question =
       (start_interview ⟨"Sam", "Excel vlookup pivot tables power query charts vba macros",
        "Analyst", "Senior"⟩ [] 5 "sid-c").1.questions.head?) := by
  constructor
  · exact (start_gate_spec ⟨"Jane Doe", "nothing relevant", "Analyst", "Junior"⟩
      [] 2 "sid-b").1 (by rw [score_nothing_relevant]; norm_num [SKILL_MATCH_THRESHOLD])
  · exact (start_gate_spec ⟨"Sam", "Excel vlookup pivot tables power query charts vba macros",
      "Analyst", "Senior"⟩ [] 5 "sid-c").2
      (by rw [score_strong_resume]; norm_num [SKILL_MATCH_THRESHOLD])

/-! ## Grading lemmas for multiple-choice submissions -/

lemma answerRecord_is_correct (q : Question) (t : String) (tmo : Bool) (g : Grader) :
    (answerRecord q t tmo g).is_correct = (gradeSubmission q t tmo g).is_correct := rfl

lemma answerRecord_score (q : Question) (t : String) (tmo : Bool) (g : Grader) :
    (answerRecord q t tmo g).score = (gradeSubmission q t tmo g).score := rfl

lemma gradeSubmission_mcq_correct (q : Question) (t : String) (g : Grader)
    (hq : q.qtype = QType.multiple_choice) :
    (gradeSubmission q t false g).is_correct =
      decide (pyUpper (take1 t) = take1 (pyUpper (pyStrip q.correct_answer))) := by
  unfold gradeSubmission
  rw [if_neg (by simp), hq]

lemma gradeSubmission_mcq_score (q : Question) (t : String) (g : Grader)
    (hq : q.qtype = QType.multiple_choice) :
    (gradeSubmission q t false g).score =
      (if pyUpper (take1 t) = take1 (pyUpper (pyStrip q.correct_answer))
       then (1 : ℚ) else 0) := by
  unfold gradeSubmission
  rw [if_neg (by simp), hq]

/-- An active, non-timed-out submission appends exactly one answer record,
built by `answerRecord` from the current question and the stripped text. -/
lemma submit_appends_record (s : Session) (a : String) (now : ℚ) (g : Grader)
    (hb : s.blocked = false) (i : ℕ) (hidx : s.current_question_index = (i : Int))
    (hi : i < s.questions.length)
    (hnt : timedOutCheck s.question_start_time now = false) :
    (submit_answer s a now g).1.answers = s.answers ++
      [answerRecord (s.questions.getD i dummyQuestion) (pyStrip a) false g] := by
  by_cases hadv : i + 1 < s.questions.length
  · rw [submit_active_advance s a now g hb i hidx hadv]
    dsimp only
    rw [hnt]
  · have hlast : i + 1 = s.questions.length := by omega
    rw [submit_active_last s a now g hb i hidx hlast]
    dsimp only
    rw [hnt]

/-! ## C5 (amended): multiple-choice grading on stripped strings -/

/-- C5 (amended): for an active, non-timed-out submission on a
multiple-choice question, the recorded answer is correct exactly when the
first character of the case-insensitive, whitespace-stripped candidate
answer equals the first character of the case-insensitive,
whitespace-stripped stored correct-answer label, with score 1 when correct
and 0 otherwise. -/
theorem mcq_first_char_grading (s : Session) (a : String) (now : ℚ) (g : Grader)
    (hb : s.blocked = false) (i : ℕ) (hidx : s.current_question_index = (i : Int))
    (hi : i < s.questions.length)
    (hq : (s.questions.getD i dummyQuestion).qtype = QType.multiple_choice)
    (hnt : timedOutCheck s.question_start_time now = false) :
    (submit_answer s a now g).1.answers = s.answers ++
      [answerRecord (s.questions.getD i dummyQuestion) (pyStrip a) false g] ∧
    (answerRecord (s.questions.getD i dummyQuestion) (pyStrip a) false g).is_correct =
      decide (pyUpper (take1 (pyStrip a)) =
        take1 (pyUpper (pyStrip (s.questions.getD i dummyQuestion).correct_answer))) ∧
    (answerRecord (s.questions.getD i dummyQuestion) (pyStrip a) false g).score =
      (if pyUpper (take1 (pyStrip a)) =
        take1 (pyUpper (pyStrip (s.questions.getD i dummyQuestion).correct_answer))
       then (1 : ℚ) else 0) ∧
    (answerRecord (s.questions.getD i dummyQuestion) (pyStrip a) false g).timed_out
      = false :=
  ⟨submit_appends_record s a now g hb i hidx hi hnt,
   gradeSubmission_mcq_correct _ _ _ hq,
   gradeSubmission_mcq_score _ _ _ hq,
   rfl⟩

/-- Witness for C5 (amended) at the spec's own example: answer "c) foo"
against stored label "C". -/
theorem mcq_first_char_grading_witness :
    (submit_answer sOneQuestion "c) foo" 5 gZero).1.answers = sOneQuestion.answers ++
      [answerRecord (sOneQuestion.questions.getD 0 dummyQuestion) (pyStrip "c) foo")
        false gZero] ∧
    (answerRecord (sOneQuestion.questions.getD 0 dummyQuestion) (pyStrip "c) foo")
        false gZero).is_correct =
      decide (pyUpper (take1 (pyStrip "c) foo")) =
        take1 (pyUpper (pyStrip
          (sOneQuestion.questions.getD 0 dummyQuestion).correct_answer))) ∧
    (answerRecord (sOneQuestion.questions.getD 0 dummyQuestion) (pyStrip "c) foo")
        false gZero).score =
      (if pyUpper (take1 (pyStrip "c) foo")) =
        take1 (pyUpper (pyStrip
          (sOneQuestion.questions.getD 0 dummyQuestion).correct_answer))
       then (1 : ℚ) else 0) ∧
    (answerRecord (sOneQuestion.questions.getD 0 dummyQuestion) (pyStrip "c) foo")
        false gZero).timed_out = false :=
  mcq_first_char_grading sOneQuestion "c) foo" 5 gZero rfl 0 rfl (by decide) rfl rfl

/-- C5 counterexample to the unamended claim.  Two concrete runs:
(1) against the stored label " C" (leading space), the submission "c" is
marked correct with score 1, although the first character of the
case-insensitive candidate answer ("C") differs from the first character
of the case-insensitive stored label (" ") — the code strips the label
first; (2) against the stored label "C", the raw submission " c) foo"
(leading space) is likewise marked correct, because the code also strips
the candidate text before taking its first character. -/
theorem mcq_first_char_counterexample :
    ((sSpacedCLabel.questions.getD 0 dummyQuestion).correct_answer = " C" ∧
     List.map Answer.is_correct (submit_answer sSpacedCLabel "c" 5 gZero).1.answers
       = [true] ∧
     List.map Answer.score (submit_answer sSpacedCLabel "c" 5 gZero).1.answers = [1] ∧
     pyUpper (take1 "c") ≠
       pyUpper (take1 (sSpacedCLabel.questions.getD 0 dummyQuestion).correct_answer)) ∧
    ((sOneQuestion.questions.getD 0 dummyQuestion).correct_answer = "C" ∧
     List.map Answer.is_correct (submit_answer sOneQuestion " c) foo" 5 gZero).1.answers
       = [true] ∧
     List.map Answer.score (submit_answer sOneQuestion " c) foo" 5 gZero).1.answers
       = [1] ∧
     pyUpper (take1 " c) foo") ≠
       pyUpper (take1 (sOneQuestion.questions.getD 0 dummyQuestion).correct_answer)) := by
  decide

/-! ## C10 (amended): empty candidate answers on multiple-choice questions -/

lemma take1_pyUpper_ne_empty {s : String} (h : s ≠ "") : take1 (pyUpper s) ≠ "" := by
  cases s with
  | mk data =>
    cases data with
    | nil => exact absurd rfl h
    | cons c cs =>
      intro he
      have hd := congrArg String.data he
      simp [take1, pyUpper, String.toList] at hd

/-- C10 (amended): for an active, non-timed-out multiple-choice submission
whose candidate answer strips to the empty string, the recorded answer is
correct with score 1 when the stored correct-answer label also strips to
the empty string (both first-character slices are empty), and incorrect
with score 0 when the stripped stored label is non-empty. -/
theorem mcq_empty_answer_grading (s : Session) (a : String) (now : ℚ) (g : Grader)
    (hb : s.blocked = false) (i : ℕ) (hidx : s.current_question_index = (i : Int))
    (hi : i < s.questions.length)
    (hq : (s.questions.getD i dummyQuestion).qtype = QType.multiple_choice)
    (hnt : timedOutCheck s.question_start_time now = false)
    (ha : pyStrip a = "") :
    (submit_answer s a now g).1.answers = s.answers ++
      [answerRecord (s.questions.getD i dummyQuestion) (pyStrip a) false g] ∧
    (pyStrip (s.questions.getD i dummyQuestion).correct_answer = "" →
      (answerRecord (s.questions.getD i dummyQuestion) (pyStrip a) false g).is_correct
        = true ∧
      (answerRecord (s.questions.getD i dummyQuestion) (pyStrip a) false g).score = 1) ∧
    (pyStrip (s.questions.getD i dummyQuestion).correct_answer ≠ "" →
      (answerRecord (s.questions.getD i dummyQuestion) (pyStrip a) false g).is_correct
        = false ∧
      (answerRecord (s.questions.getD i dummyQuestion) (pyStrip a) false g).score = 0) := by
  have hcand : pyUpper (take1 (pyStrip a)) = "" := by rw [ha]; rfl
  refine ⟨submit_appends_record s a now g hb i hidx hi hnt, ?_, ?_⟩
  · intro hlabel
    have hcmp : pyUpper (take1 (pyStrip a)) =
        take1 (pyUpper (pyStrip (s.questions.getD i dummyQuestion).correct_answer)) := by
      rw [hcand, hlabel]
      rfl
    constructor
    · rw [answerRecord_is_correct, gradeSubmission_mcq_correct _ _ _ hq]
      exact decide_eq_true hcmp
    · rw [answerRecord_score, gradeSubmission_mcq_score _ _ _ hq, if_pos hcmp]
  · intro hlabel
    have hcmp : pyUpper (take1 (pyStrip a)) ≠
        take1 (pyUpper (pyStrip (s.questions.getD i dummyQuestion).correct_answer)) := by
      rw [hcand]
      exact fun he => take1_pyUpper_ne_empty hlabel he.symm
    constructor
    · rw [answerRecord_is_correct, gradeSubmission_mcq_correct _ _ _ hq]
      exact decide_eq_false hcmp
    · rw [answerRecord_score, gradeSubmission_mcq_score _ _ _ hq, if_neg hcmp]

/-- Witness for C10 (amended): the whitespace submission " " against the
non-empty stored label "C" is recorded incorrect with score 0. -/
theorem mcq_empty_answer_grading_witness :
    ((submit_answer sOneQuestion " " 5 gZero).1.answers = sOneQuestion.answers ++
      [answerRecord (sOneQuestion.questions.getD 0 dummyQuestion) (pyStrip " ")
        false gZero]) ∧
    ((answerRecord (sOneQuestion.questions.getD 0 dummyQuestion) (pyStrip " ")
        false gZero).is_correct = false ∧
     (answerRecord (sOneQuestion.questions.getD 0 dummyQuestion) (pyStrip " ")
        false gZero).score = 0) := by
  have h := mcq_empty_answer_grading sOneQuestion " " 5 gZero rfl 0 rfl (by decide)
    rfl rfl (by decide)
  exact ⟨h.1, h.2.2 (by decide)⟩

/-- C10 counterexample to the unamended claim: the stored label " " is a
non-empty string, yet the empty candidate answer is marked correct with
score 1, because the label is stripped to the empty string before its
first character is taken. -/
theorem mcq_empty_answer_counterexample :
    (sSpaceLabel.questions.getD 0 dummyQuestion).correct_answer ≠ "" ∧
    List.map Answer.is_correct (submit_answer sSpaceLabel "" 1 gZero).1.answers
      = [true] ∧
    List.map Answer.score (submit_answer sSpaceLabel "" 1 gZero).1.answers = [1] := by
  decide

/-! ## C4: timed-out submissions (code bug on the final question) -/

/-- The timeout test fires for a question presented at time 0 and a
submission arriving at time 121 (limit 120 s). -/
lemma timedOut_at_121 : timedOutCheck (some 0) 121 = true := by
  simp only [timedOutCheck, QUESTION_TIME_LIMIT_SEC]
  rw [decide_eq_true_eq]
  norm_num

/-- C4 exhibit: a timed-out submission on the (only, hence final) question
of a concrete session records `timed_out = true`, score 0, empty stored
text, and clears the start timestamp — but leaves
`current_question_index` at 0 instead of setting it to the question count
1, so the session never reaches the completed index. -/
theorem timeout_final_question_divergence :
    List.map Answer.timed_out (submit_answer sOneQuestionTimed "A" 121 gZero).1.answers
      = [true] ∧
    List.map Answer.score (submit_answer sOneQuestionTimed "A" 121 gZero).1.answers
      = [0] ∧
    List.map Answer.answer (submit_answer sOneQuestionTimed "A" 121 gZero).1.answers
      = [""] ∧
    (submit_answer sOneQuestionTimed "A" 121 gZero).1.question_start_time = none ∧
    (submit_answer sOneQuestionTimed "A" 121 gZero).1.questions.length = 1 ∧
    (submit_answer sOneQuestionTimed "A" 121 gZero).1.current_question_index = 0 := by
  rw [submit_active_last sOneQuestionTimed "A" 121 gZero rfl 0 rfl rfl]
  dsimp only
  rw [show sOneQuestionTimed.question_start_time = some 0 from rfl, timedOut_at_121]
  refine ⟨?_, ?_, ?_, rfl, rfl, rfl⟩ <;>
    simp [sOneQuestionTimed, sOneQuestion, answerRecord, gradeSubmission]

end ExcelInterviewer
